import Mathlib

/-!
Verification of the backend proxy gateway.

The gateway registers six proxy routes in order (five specific prefixes and a
final catch-all), rewrites the matched prefix of the request path before
forwarding, classifies transport failures into 503/504/500 responses, and
serves a static health endpoint, an on-demand diagnostic probe, a 404
fallback and a global error handler.

Request paths are modelled as lists of characters (query strings are out of
scope).  Mount matching follows the framework's literal
segment-boundary semantics: a mounted handler fires when the path equals the
mount string or continues it with a slash, case-sensitively.
-/

/-- A request path, as a list of characters. -/
abbrev ReqPath := List Char

/-- The environment-supplied service target configuration (the source's
`SERVICE_URLS` object, one base URL per backend). -/
structure ServiceUrls where
  classifier : String
  parsercleaner : String
  responsegenerator : String
  collector : String
deriving DecidableEq

/-- The default `SERVICE_URLS` values used when no environment overrides are
supplied. -/
def SERVICE_URLS : ServiceUrls :=
  ⟨"http://classifier.railway.internal:8000",
   "http://parser_cleaner.railway.internal:8000",
   "http://response_generator.railway.internal:8000",
   "http://lemlist-collector.railway.internal:8000"⟩

/-- A minimal JSON value, enough for the bodies the gateway produces. -/
inductive Json where
  | str : String → Json
  | num : Nat → Json
  | obj : List (String × Json) → Json

/-- A transport-level error surfaced by the proxy dispatch (its `code` and
`message` properties). -/
structure ErrorInfo where
  code : String
  message : String
deriving DecidableEq

/-- The proxy options built by `createProxyConfig(serviceName, target)`:
target, change-origin flag and the fixed 30-second timeout. -/
structure ProxyConfig where
  serviceName : String
  target : String
  changeOrigin : Bool
  timeout : Nat
deriving DecidableEq

/-- `createProxyConfig` from the source: every service proxy is configured
with `changeOrigin: true` and `timeout: 30000`. -/
def createProxyConfig (serviceName target : String) : ProxyConfig :=
  ⟨serviceName, target, true, 30000⟩

/-- The `onError` handler installed by `createProxyConfig`: classify the
failure by its error code into (status, JSON body). -/
def onError (serviceName target : String) (err : ErrorInfo) (now : String) :
    Nat × Json :=
  if err.code == "ECONNREFUSED" then
    (503, Json.obj [("error", Json.str "Service Unavailable"),
                    ("message", Json.str (serviceName ++ " service is not responding")),
                    ("service", Json.str serviceName),
                    ("target", Json.str target),
                    ("timestamp", Json.str now)])
  else if err.code == "ETIMEDOUT" then
    (504, Json.obj [("error", Json.str "Gateway Timeout"),
                    ("message", Json.str (serviceName ++ " service took too long to respond")),
                    ("service", Json.str serviceName)])
  else
    (500, Json.obj [("error", Json.str "Proxy Error"),
                    ("message", Json.str err.message),
                    ("code", Json.str err.code),
                    ("service", Json.str serviceName)])

/-- One registered proxy route: the mount string given to `app.use`, the
`pathRewrite` rule (pattern stripped of its `^` anchor, and its replacement),
and the proxy configuration. -/
structure Route where
  mountStr : ReqPath
  rewriteFrom : ReqPath
  rewriteTo : ReqPath
  config : ProxyConfig
deriving DecidableEq

/-- Route for `/api/classify` (rewrites `^/api/classify` to the empty string,
targeting the classifier service). -/
def classifyRoute (cfg : ServiceUrls) : Route :=
  ⟨"/api/classify".toList, "/api/classify".toList, [],
   createProxyConfig "classifier" cfg.classifier⟩

/-- Route for `/api/clean` (rewrites `^/api/clean` to the empty string,
targeting the parser-cleaner service). -/
def cleanRoute (cfg : ServiceUrls) : Route :=
  ⟨"/api/clean".toList, "/api/clean".toList, [],
   createProxyConfig "parser-cleaner" cfg.parsercleaner⟩

/-- Route for `/api/generate` (rewrites `^/api/generate` to the empty string,
targeting the response-generator service). -/
def generateRoute (cfg : ServiceUrls) : Route :=
  ⟨"/api/generate".toList, "/api/generate".toList, [],
   createProxyConfig "response-generator" cfg.responsegenerator⟩

/-- Route for `/api/collect` (rewrites `^/api/collect` to `/collect`,
targeting the collector service). -/
def collectRoute (cfg : ServiceUrls) : Route :=
  ⟨"/api/collect".toList, "/api/collect".toList, "/collect".toList,
   createProxyConfig "collector-collect" cfg.collector⟩

/-- Route for `/api/companies` (rewrites `^/api/companies` to `/companies`,
targeting the collector service). -/
def companiesRoute (cfg : ServiceUrls) : Route :=
  ⟨"/api/companies".toList, "/api/companies".toList, "/companies".toList,
   createProxyConfig "collector-companies" cfg.collector⟩

/-- The final catch-all route for `/api` (rewrites `^/api` to the empty
string, targeting the collector service). -/
def catchAllRoute (cfg : ServiceUrls) : Route :=
  ⟨"/api".toList, "/api".toList, [],
   createProxyConfig "collector-catchall" cfg.collector⟩

/-- The route table, in registration order: the five specific routes first,
the `/api` catch-all last (the source marks this ordering as IMPORTANT). -/
def routes (cfg : ServiceUrls) : List Route :=
  [classifyRoute cfg, cleanRoute cfg, generateRoute cfg,
   collectRoute cfg, companiesRoute cfg, catchAllRoute cfg]

/-- Mount matching of `app.use(mount, ...)`: the handler fires when the
request path equals the mount string or continues it with a slash. -/
def mountMatches (mount path : ReqPath) : Bool :=
  path == mount || List.isPrefixOf (mount ++ ['/']) path

/-- The matcher: first registered route whose mount string matches the path. -/
def matchRoute (rs : List Route) (path : ReqPath) : Option Route :=
  rs.find? (fun r => mountMatches r.mountStr path)

/-- `pathRewrite` with a single `^`-anchored literal rule: replace the
pattern at the start of the path by the replacement; leave the path unchanged
when the pattern does not match at the start. -/
def pathRewrite (pat repl path : ReqPath) : ReqPath :=
  if List.isPrefixOf pat path then repl ++ path.drop pat.length else path

/-- An inbound HTTP request: method and path. -/
structure Request where
  method : String
  path : ReqPath

/-- The body served by `GET /health`: static apart from the timestamp. -/
def healthBody (now : String) : Json :=
  Json.obj [("status", Json.str "OK"),
            ("timestamp", Json.str now),
            ("services", Json.obj
              [("classifier", Json.str "http://classifier.railway.internal"),
               ("parsercleaner", Json.str "http://parser_cleaner.railway.internal"),
               ("responsegenerator", Json.str "http://response_generator.railway.internal"),
               ("collector", Json.str "lemlist-collector.railway.internal")])]

/-- One outbound probe issued by `GET /diagnostic`: variant name, probed URL
and the per-request timeout option passed to fetch. -/
structure Probe where
  name : String
  url : String
  timeout : Nat
deriving DecidableEq

/-- The `servicesWithPort` table hardcoded inside the `/diagnostic` handler:
three collector address variants differing only by port. -/
def servicesWithPort : List (String × String) :=
  [("collector-8000", "http://lemlist-collector.railway.internal:8000"),
   ("collector-3000", "http://lemlist-collector.railway.internal:3000"),
   ("collector-no-port", "http://lemlist-collector.railway.internal")]

/-- The probes `GET /diagnostic` issues: each variant is fetched at `/status`
with a 5000 ms timeout option.  The handler reads none of the configured
service targets, so the configuration argument is unused. -/
def diagnosticProbes (_cfg : ServiceUrls) : List Probe :=
  servicesWithPort.map (fun p => ⟨p.1, p.2 ++ "/status", 5000⟩)

/-- The body of the 404 fallback `app.use('*')`. -/
def notFoundBody : Json := Json.obj [("error", Json.str "Route not found")]

/-- The response of the global error handler (status and body). -/
def globalErrorResponse : Nat × Json :=
  (500, Json.obj [("error", Json.str "Internal server error")])

/-- The outcome of routing one request: hand it to a proxy with a rewritten
path, answer directly, or run the diagnostic probes. -/
inductive Outcome where
  | proxied : ProxyConfig → ReqPath → Outcome
  | direct : Nat → Json → Outcome
  | probing : List Probe → Outcome

/-- The request pipeline in registration order: the six proxy routes, then
`GET /health`, then `GET /diagnostic`, then the 404 fallback. -/
def handle (cfg : ServiceUrls) (req : Request) (now : String) : Outcome :=
  match matchRoute (routes cfg) req.path with
  | some r => .proxied r.config (pathRewrite r.rewriteFrom r.rewriteTo req.path)
  | none =>
    if req.method == "GET" && req.path == "/health".toList then
      .direct 200 (healthBody now)
    else if req.method == "GET" && req.path == "/diagnostic".toList then
      .probing (diagnosticProbes cfg)
    else
      .direct 404 notFoundBody

/-! Basic facts about boolean prefix tests, needed to reason about the
matcher on abstract paths. -/

theorem isPrefixOf_app {α : Type} [BEq α] [LawfulBEq α] (l₁ l₂ : List α) :
    List.isPrefixOf l₁ (l₁ ++ l₂) = true := by
  induction l₁ with
  | nil => simp [List.isPrefixOf]
  | cons a as ih => simp [List.isPrefixOf, ih]

theorem isPrefixOf_self {α : Type} [BEq α] [LawfulBEq α] (l : List α) :
    List.isPrefixOf l l = true := by
  have h := isPrefixOf_app l []
  rwa [List.append_nil] at h

theorem isPrefixOf_trans {α : Type} [BEq α] [LawfulBEq α] :
    ∀ {l₁ l₂ l₃ : List α}, List.isPrefixOf l₁ l₂ = true →
      List.isPrefixOf l₂ l₃ = true → List.isPrefixOf l₁ l₃ = true := by
  intro l₁
  induction l₁ with
  | nil => intro l₂ l₃ _ _; simp [List.isPrefixOf]
  | cons a as ih =>
    intro l₂ l₃ h₁ h₂
    cases l₂ with
    | nil => simp [List.isPrefixOf] at h₁
    | cons b bs =>
      cases l₃ with
      | nil => simp [List.isPrefixOf] at h₂
      | cons c cs =>
        simp only [List.isPrefixOf, Bool.and_eq_true, beq_iff_eq] at h₁ h₂ ⊢
        exact ⟨h₁.1.trans h₂.1, ih h₁.2 h₂.2⟩

theorem isPrefixOf_comp {α : Type} [BEq α] [LawfulBEq α] :
    ∀ (l₃ l₁ l₂ : List α), List.isPrefixOf l₁ l₃ = true →
      List.isPrefixOf l₂ l₃ = true →
      (List.isPrefixOf l₁ l₂ || List.isPrefixOf l₂ l₁) = true := by
  intro l₃
  induction l₃ with
  | nil =>
    intro l₁ l₂ h₁ _
    cases l₁ with
    | nil => simp [List.isPrefixOf]
    | cons a as => simp [List.isPrefixOf] at h₁
  | cons c cs ih =>
    intro l₁ l₂ h₁ h₂
    cases l₁ with
    | nil => simp [List.isPrefixOf]
    | cons a as =>
      cases l₂ with
      | nil => simp [List.isPrefixOf]
      | cons b bs =>
        simp only [List.isPrefixOf, Bool.and_eq_true, beq_iff_eq] at h₁ h₂
        simp only [List.isPrefixOf, h₁.1.trans h₂.1.symm, beq_self_eq_true,
          Bool.true_and, ← Bool.or_eq_true]
        exact ih as bs h₁.2 h₂.2

theorem mount_isPrefixOf {mount path : ReqPath}
    (h : mountMatches mount path = true) :
    List.isPrefixOf mount path = true := by
  simp only [mountMatches, Bool.or_eq_true, beq_iff_eq] at h
  rcases h with h | h
  · rw [h]; exact isPrefixOf_self mount
  · exact isPrefixOf_trans (isPrefixOf_app mount ['/']) h

theorem mount_excl {p q path : ReqPath}
    (h : (List.isPrefixOf p q || List.isPrefixOf q p) = false)
    (hp : mountMatches p path = true) : mountMatches q path = false := by
  cases hq : mountMatches q path
  · rfl
  · have := isPrefixOf_comp path p q (mount_isPrefixOf hp) (mount_isPrefixOf hq)
    rw [h] at this
    cases this

theorem find?_first {α : Type} (p : α → Bool) (a : α) :
    ∀ (l₁ l₂ : List α), (∀ x ∈ l₁, p x = false) → p a = true →
      List.find? p (l₁ ++ a :: l₂) = some a := by
  intro l₁
  induction l₁ with
  | nil => intro l₂ _ ha; simpa using List.find?_cons_of_pos _ ha
  | cons b bs ih =>
    intro l₂ h ha
    rw [List.cons_append, List.find?_cons_of_neg _ (by simp [h b (by simp)])]
    exact ih l₂ (fun x hx => h x (by simp [hx])) ha

theorem matchRoute_classify (cfg : ServiceUrls) (path : ReqPath)
    (hp : mountMatches "/api/classify".toList path = true) :
    matchRoute (routes cfg) path = some (classifyRoute cfg) := by
  rw [matchRoute, show routes cfg = [] ++ classifyRoute cfg ::
    [cleanRoute cfg, generateRoute cfg, collectRoute cfg,
     companiesRoute cfg, catchAllRoute cfg] from rfl]
  exact find?_first _ _ _ _ (by simp) hp

theorem matchRoute_clean (cfg : ServiceUrls) (path : ReqPath)
    (hp : mountMatches "/api/clean".toList path = true) :
    matchRoute (routes cfg) path = some (cleanRoute cfg) := by
  rw [matchRoute, show routes cfg = [classifyRoute cfg] ++ cleanRoute cfg ::
    [generateRoute cfg, collectRoute cfg,
     companiesRoute cfg, catchAllRoute cfg] from rfl]
  refine find?_first _ _ _ _ ?_ hp
  intro x hx
  simp only [List.mem_singleton] at hx
  subst hx
  show mountMatches "/api/classify".toList path = false
  exact mount_excl (by decide) hp

theorem matchRoute_generate (cfg : ServiceUrls) (path : ReqPath)
    (hp : mountMatches "/api/generate".toList path = true) :
    matchRoute (routes cfg) path = some (generateRoute cfg) := by
  rw [matchRoute, show routes cfg = [classifyRoute cfg, cleanRoute cfg] ++
    generateRoute cfg :: [collectRoute cfg,
     companiesRoute cfg, catchAllRoute cfg] from rfl]
  refine find?_first _ _ _ _ ?_ hp
  intro x hx
  simp only [List.mem_cons, List.mem_singleton, List.not_mem_nil, or_false] at hx
  rcases hx with rfl | rfl
  · show mountMatches "/api/classify".toList path = false
    exact mount_excl (by decide) hp
  · show mountMatches "/api/clean".toList path = false
    exact mount_excl (by decide) hp

theorem matchRoute_collect (cfg : ServiceUrls) (path : ReqPath)
    (hp : mountMatches "/api/collect".toList path = true) :
    matchRoute (routes cfg) path = some (collectRoute cfg) := by
  rw [matchRoute, show routes cfg =
    [classifyRoute cfg, cleanRoute cfg, generateRoute cfg] ++
    collectRoute cfg :: [companiesRoute cfg, catchAllRoute cfg] from rfl]
  refine find?_first _ _ _ _ ?_ hp
  intro x hx
  simp only [List.mem_cons, List.mem_singleton, List.not_mem_nil, or_false] at hx
  rcases hx with rfl | rfl | rfl
  · show mountMatches "/api/classify".toList path = false
    exact mount_excl (by decide) hp
  · show mountMatches "/api/clean".toList path = false
    exact mount_excl (by decide) hp
  · show mountMatches "/api/generate".toList path = false
    exact mount_excl (by decide) hp

theorem matchRoute_companies (cfg : ServiceUrls) (path : ReqPath)
    (hp : mountMatches "/api/companies".toList path = true) :
    matchRoute (routes cfg) path = some (companiesRoute cfg) := by
  rw [matchRoute, show routes cfg =
    [classifyRoute cfg, cleanRoute cfg, generateRoute cfg, collectRoute cfg] ++
    companiesRoute cfg :: [catchAllRoute cfg] from rfl]
  refine find?_first _ _ _ _ ?_ hp
  intro x hx
  simp only [List.mem_cons, List.mem_singleton, List.not_mem_nil, or_false] at hx
  rcases hx with rfl | rfl | rfl | rfl
  · show mountMatches "/api/classify".toList path = false
    exact mount_excl (by decide) hp
  · show mountMatches "/api/clean".toList path = false
    exact mount_excl (by decide) hp
  · show mountMatches "/api/generate".toList path = false
    exact mount_excl (by decide) hp
  · show mountMatches "/api/collect".toList path = false
    exact mount_excl (by decide) hp

theorem handle_proxied (cfg : ServiceUrls) (req : Request) (now : String)
    (r : Route) (hm : matchRoute (routes cfg) req.path = some r)
    (hpre : List.isPrefixOf r.rewriteFrom req.path = true) :
    handle cfg req now =
      .proxied r.config (r.rewriteTo ++ req.path.drop r.rewriteFrom.length) := by
  unfold handle
  rw [hm]
  simp [pathRewrite, hpre]

/-- C1: every request whose path matches one of the five registered specific
prefixes is dispatched to that prefix's configured target service with the
prefix replaced by that route's configured replacement, and never to the
generic `/api` catch-all; in particular `/api/collect/ingest` is forwarded as
`/collect/ingest` to the collector target, and `/api/unknownthing` matches
only the catch-all and is forwarded as `/unknownthing`. -/
theorem specific_routes_bypass_catchall (cfg : ServiceUrls) (path : ReqPath)
    (method now : String) :
    ((mountMatches "/api/classify".toList path = true →
       matchRoute (routes cfg) path = some (classifyRoute cfg) ∧
       handle cfg ⟨method, path⟩ now =
         .proxied (createProxyConfig "classifier" cfg.classifier)
           ([] ++ path.drop "/api/classify".toList.length) ∧
       matchRoute (routes cfg) path ≠ some (catchAllRoute cfg)) ∧
     (mountMatches "/api/clean".toList path = true →
       matchRoute (routes cfg) path = some (cleanRoute cfg) ∧
       handle cfg ⟨method, path⟩ now =
         .proxied (createProxyConfig "parser-cleaner" cfg.parsercleaner)
           ([] ++ path.drop "/api/clean".toList.length) ∧
       matchRoute (routes cfg) path ≠ some (catchAllRoute cfg)) ∧
     (mountMatches "/api/generate".toList path = true →
       matchRoute (routes cfg) path = some (generateRoute cfg) ∧
       handle cfg ⟨method, path⟩ now =
         .proxied (createProxyConfig "response-generator" cfg.responsegenerator)
           ([] ++ path.drop "/api/generate".toList.length) ∧
       matchRoute (routes cfg) path ≠ some (catchAllRoute cfg)) ∧
     (mountMatches "/api/collect".toList path = true →
       matchRoute (routes cfg) path = some (collectRoute cfg) ∧
       handle cfg ⟨method, path⟩ now =
         .proxied (createProxyConfig "collector-collect" cfg.collector)
           ("/collect".toList ++ path.drop "/api/collect".toList.length) ∧
       matchRoute (routes cfg) path ≠ some (catchAllRoute cfg)) ∧
     (mountMatches "/api/companies".toList path = true →
       matchRoute (routes cfg) path = some (companiesRoute cfg) ∧
       handle cfg ⟨method, path⟩ now =
         .proxied (createProxyConfig "collector-companies" cfg.collector)
           ("/companies".toList ++ path.drop "/api/companies".toList.length) ∧
       matchRoute (routes cfg) path ≠ some (catchAllRoute cfg))) ∧
    handle cfg ⟨method, "/api/collect/ingest".toList⟩ now =
      .proxied (createProxyConfig "collector-collect" cfg.collector)
        "/collect/ingest".toList ∧
    handle cfg ⟨method, "/api/unknownthing".toList⟩ now =
      .proxied (createProxyConfig "collector-catchall" cfg.collector)
        "/unknownthing".toList := by
  refine ⟨⟨?_, ?_, ?_, ?_, ?_⟩, rfl, rfl⟩
  · intro hp
    have hm := matchRoute_classify cfg path hp
    refine ⟨hm, handle_proxied cfg ⟨method, path⟩ now _ hm (mount_isPrefixOf hp), ?_⟩
    intro hc
    rw [hm] at hc
    exact absurd (congrArg Route.mountStr (Option.some.inj hc))
      (show ¬("/api/classify".toList = "/api".toList) by decide)
  · intro hp
    have hm := matchRoute_clean cfg path hp
    refine ⟨hm, handle_proxied cfg ⟨method, path⟩ now _ hm (mount_isPrefixOf hp), ?_⟩
    intro hc
    rw [hm] at hc
    exact absurd (congrArg Route.mountStr (Option.some.inj hc))
      (show ¬("/api/clean".toList = "/api".toList) by decide)
  · intro hp
    have hm := matchRoute_generate cfg path hp
    refine ⟨hm, handle_proxied cfg ⟨method, path⟩ now _ hm (mount_isPrefixOf hp), ?_⟩
    intro hc
    rw [hm] at hc
    exact absurd (congrArg Route.mountStr (Option.some.inj hc))
      (show ¬("/api/generate".toList = "/api".toList) by decide)
  · intro hp
    have hm := matchRoute_collect cfg path hp
    refine ⟨hm, handle_proxied cfg ⟨method, path⟩ now _ hm (mount_isPrefixOf hp), ?_⟩
    intro hc
    rw [hm] at hc
    exact absurd (congrArg Route.mountStr (Option.some.inj hc))
      (show ¬("/api/collect".toList = "/api".toList) by decide)
  · intro hp
    have hm := matchRoute_companies cfg path hp
    refine ⟨hm, handle_proxied cfg ⟨method, path⟩ now _ hm (mount_isPrefixOf hp), ?_⟩
    intro hc
    rw [hm] at hc
    exact absurd (congrArg Route.mountStr (Option.some.inj hc))
      (show ¬("/api/companies".toList = "/api".toList) by decide)

/-- Witness for C1: evaluated on concrete requests, one per specific prefix,
the matching specific route wins. -/
theorem specific_routes_bypass_catchall_witness :
    handle SERVICE_URLS ⟨"POST", "/api/classify/predict".toList⟩ "ts" =
      .proxied (createProxyConfig "classifier" SERVICE_URLS.classifier)
        ([] ++ "/api/classify/predict".toList.drop "/api/classify".toList.length) ∧
    matchRoute (routes SERVICE_URLS) "/api/clean/run".toList =
      some (cleanRoute SERVICE_URLS) ∧
    matchRoute (routes SERVICE_URLS) "/api/generate/reply".toList =
      some (generateRoute SERVICE_URLS) ∧
    matchRoute (routes SERVICE_URLS) "/api/collect/ingest".toList =
      some (collectRoute SERVICE_URLS) ∧
    matchRoute (routes SERVICE_URLS) "/api/companies/42".toList =
      some (companiesRoute SERVICE_URLS) :=
  ⟨(((specific_routes_bypass_catchall SERVICE_URLS
      "/api/classify/predict".toList "POST" "ts").1.1) (by decide)).2.1,
   (((specific_routes_bypass_catchall SERVICE_URLS
      "/api/clean/run".toList "POST" "ts").1.2.1) (by decide)).1,
   (((specific_routes_bypass_catchall SERVICE_URLS
      "/api/generate/reply".toList "POST" "ts").1.2.2.1) (by decide)).1,
   (((specific_routes_bypass_catchall SERVICE_URLS
      "/api/collect/ingest".toList "POST" "ts").1.2.2.2.1) (by decide)).1,
   (((specific_routes_bypass_catchall SERVICE_URLS
      "/api/companies/42".toList "POST" "ts").1.2.2.2.2) (by decide)).1⟩

/-- C2: rewriting `prefix ++ suffix` under the anchored rule for `prefix`
yields exactly the replacement followed by the suffix: with replacement `""`
the result is the bare suffix, and with replacement `"/x"` it is `"/x"`
followed by the suffix; the configured rules (`^/api/classify` to `""`,
`^/api/collect` to `/collect`) are instances. -/
theorem rewrite_round_trip (pfx sfx : ReqPath) :
    pathRewrite pfx [] (pfx ++ sfx) = sfx ∧
    pathRewrite pfx "/x".toList (pfx ++ sfx) = "/x".toList ++ sfx ∧
    pathRewrite "/api/classify".toList []
      ("/api/classify".toList ++ sfx) = sfx ∧
    pathRewrite "/api/collect".toList "/collect".toList
      ("/api/collect".toList ++ sfx) = "/collect".toList ++ sfx := by
  have key : ∀ repl : ReqPath, pathRewrite pfx repl (pfx ++ sfx) = repl ++ sfx := by
    intro repl
    rw [pathRewrite, if_pos (isPrefixOf_app pfx sfx), List.drop_left]
  have key2 : ∀ (p repl : ReqPath), pathRewrite p repl (p ++ sfx) = repl ++ sfx := by
    intro p repl
    rw [pathRewrite, if_pos (isPrefixOf_app p sfx), List.drop_left]
  exact ⟨by simpa using key [], key "/x".toList,
         by simpa using key2 "/api/classify".toList [],
         key2 "/api/collect".toList "/collect".toList⟩

/-- C3: a dispatch failure with error code ECONNREFUSED is answered with
status 503 and a JSON body whose `error` field is `Service Unavailable`,
together with a human-readable message, the service name, the resolved target
address and a timestamp. -/
theorem econnrefused_yields_503 (serviceName target now : String)
    (err : ErrorInfo) (h : err.code = "ECONNREFUSED") :
    onError serviceName target err now =
      (503, Json.obj
        [("error", Json.str "Service Unavailable"),
         ("message", Json.str (serviceName ++ " service is not responding")),
         ("service", Json.str serviceName),
         ("target", Json.str target),
         ("timestamp", Json.str now)]) := by
  rcases err with ⟨c, m⟩
  simp only at h
  subst h
  rfl

/-- Witness for C3: the theorem evaluated on a concrete refused connection
against the collector target. -/
theorem econnrefused_yields_503_witness :
    onError "collector-catchall" "http://lemlist-collector.railway.internal:8000"
      ⟨"ECONNREFUSED", "connect ECONNREFUSED"⟩ "2026-02-03T04:05:06.000Z" =
      (503, Json.obj
        [("error", Json.str "Service Unavailable"),
         ("message", Json.str "collector-catchall service is not responding"),
         ("service", Json.str "collector-catchall"),
         ("target", Json.str "http://lemlist-collector.railway.internal:8000"),
         ("timestamp", Json.str "2026-02-03T04:05:06.000Z")]) :=
  econnrefused_yields_503 "collector-catchall"
    "http://lemlist-collector.railway.internal:8000"
    "2026-02-03T04:05:06.000Z" ⟨"ECONNREFUSED", "connect ECONNREFUSED"⟩ rfl

/-- C4: every registered proxy route is configured with the single fixed
30000 ms timeout, and a dispatch failure whose code is ETIMEDOUT is answered
with status 504 and a JSON body whose `error` field is `Gateway Timeout`,
carrying a message and the service name and no target field. -/
theorem fixed_timeout_and_504 (cfg : ServiceUrls) :
    (∀ r ∈ routes cfg, r.config.timeout = 30000) ∧
    ∀ (serviceName target now : String) (err : ErrorInfo),
      err.code = "ETIMEDOUT" →
      onError serviceName target err now =
        (504, Json.obj
          [("error", Json.str "Gateway Timeout"),
           ("message", Json.str (serviceName ++ " service took too long to respond")),
           ("service", Json.str serviceName)]) := by
  constructor
  · intro r hr
    simp only [routes, List.mem_cons, List.not_mem_nil, or_false] at hr
    rcases hr with rfl | rfl | rfl | rfl | rfl | rfl <;> rfl
  · intro serviceName target now err h
    rcases err with ⟨c, m⟩
    simp only at h
    subst h
    rfl

/-- Witness for C4: the timeout of the collect route under the default
configuration, and the 504 response for a concrete timed-out request. -/
theorem fixed_timeout_and_504_witness :
    (collectRoute SERVICE_URLS).config.timeout = 30000 ∧
    onError "collector-collect" "http://lemlist-collector.railway.internal:8000"
      ⟨"ETIMEDOUT", "timed out"⟩ "ts" =
      (504, Json.obj
        [("error", Json.str "Gateway Timeout"),
         ("message", Json.str "collector-collect service took too long to respond"),
         ("service", Json.str "collector-collect")]) :=
  ⟨(fixed_timeout_and_504 SERVICE_URLS).1 (collectRoute SERVICE_URLS) (by decide),
   (fixed_timeout_and_504 SERVICE_URLS).2 "collector-collect"
     "http://lemlist-collector.railway.internal:8000" "ts"
     ⟨"ETIMEDOUT", "timed out"⟩ rfl⟩

/-- C5: the failure classifier is total and exclusive: the status is 503
exactly for code ECONNREFUSED, 504 exactly for code ETIMEDOUT, and 500
(Proxy Error with message, code and service) exactly otherwise; the
status always lands in one of the three, and the chosen outcome depends
solely on the failure's error code. -/
theorem classifier_total_exclusive (serviceName target now : String)
    (err : ErrorInfo) :
    ((onError serviceName target err now).1 = 503 ↔ err.code = "ECONNREFUSED") ∧
    ((onError serviceName target err now).1 = 504 ↔ err.code = "ETIMEDOUT") ∧
    ((onError serviceName target err now).1 = 500 ↔
      (err.code ≠ "ECONNREFUSED" ∧ err.code ≠ "ETIMEDOUT")) ∧
    ((onError serviceName target err now).1 = 503 ∨
     (onError serviceName target err now).1 = 504 ∨
     (onError serviceName target err now).1 = 500) ∧
    ((onError serviceName target err now).1 = 500 →
      onError serviceName target err now =
        (500, Json.obj [("error", Json.str "Proxy Error"),
                        ("message", Json.str err.message),
                        ("code", Json.str err.code),
                        ("service", Json.str serviceName)])) ∧
    (∀ err' : ErrorInfo, err'.code = err.code →
      (onError serviceName target err' now).1 =
        (onError serviceName target err now).1) := by
  rcases err with ⟨c, m⟩
  by_cases h1 : c = "ECONNREFUSED"
  · subst h1
    refine ⟨by simp [onError], by simp [onError], by simp [onError], ?_, ?_, ?_⟩
    · left; rfl
    · intro h; simp [onError] at h
    · intro e' he'
      rcases e' with ⟨c', m'⟩
      simp only at he'
      subst he'
      rfl
  · by_cases h2 : c = "ETIMEDOUT"
    · subst h2
      refine ⟨by simp [onError], by simp [onError], by simp [onError], ?_, ?_, ?_⟩
      · right; left; rfl
      · intro h; simp [onError] at h
      · intro e' he'
        rcases e' with ⟨c', m'⟩
        simp only at he'
        subst he'
        rfl
    · have hb1 : (c == "ECONNREFUSED") = false := by
        simp [h1]
      have hb2 : (c == "ETIMEDOUT") = false := by
        simp [h2]
      refine ⟨by simp [onError, hb1, hb2, h1],
              by simp [onError, hb1, hb2, h2],
              by simp [onError, hb1, hb2, h1, h2], ?_, ?_, ?_⟩
      · right; right; simp [onError, hb1, hb2]
      · intro _; simp [onError, hb1, hb2]
      · intro e' he'
        rcases e' with ⟨c', m'⟩
        simp only at he'
        subst he'
        simp [onError, hb1, hb2]

/-- Witness for C5: for a concrete miscellaneous failure the classifier
returns 500, the outcome does not depend on the error message, and the body
echoes message, code and service. -/
theorem classifier_total_exclusive_witness :
    ((onError "collector" "http://t" ⟨"EPIPE", "broken pipe"⟩ "ts").1 = 500 ↔
      (("EPIPE" : String) ≠ "ECONNREFUSED" ∧ ("EPIPE" : String) ≠ "ETIMEDOUT")) ∧
    (onError "collector" "http://t" ⟨"EPIPE", "other text"⟩ "ts").1 =
      (onError "collector" "http://t" ⟨"EPIPE", "broken pipe"⟩ "ts").1 ∧
    onError "collector" "http://t" ⟨"EPIPE", "broken pipe"⟩ "ts" =
      (500, Json.obj [("error", Json.str "Proxy Error"),
                      ("message", Json.str "broken pipe"),
                      ("code", Json.str "EPIPE"),
                      ("service", Json.str "collector")]) :=
  ⟨(classifier_total_exclusive "collector" "http://t" "ts"
      ⟨"EPIPE", "broken pipe"⟩).2.2.1,
   (classifier_total_exclusive "collector" "http://t" "ts"
      ⟨"EPIPE", "broken pipe"⟩).2.2.2.2.2 ⟨"EPIPE", "other text"⟩ rfl,
   (classifier_total_exclusive "collector" "http://t" "ts"
      ⟨"EPIPE", "broken pipe"⟩).2.2.2.2.1 rfl⟩

/-- C6 counterexample: for a transport failure that is neither connection
refused nor timeout, the 500 Proxy Error body's `message` field carries the
transport error's raw message text verbatim, so failure bodies are not free
of raw transport error text. -/
theorem proxy_error_body_carries_raw_message :
    onError "collector-catchall" "http://lemlist-collector.railway.internal:8000"
      ⟨"ENOTFOUND", "getaddrinfo ENOTFOUND lemlist-collector.railway.internal"⟩
      "2026-02-03T04:05:06.000Z" =
      (500, Json.obj
        [("error", Json.str "Proxy Error"),
         ("message", Json.str "getaddrinfo ENOTFOUND lemlist-collector.railway.internal"),
         ("code", Json.str "ENOTFOUND"),
         ("service", Json.str "collector-catchall")]) := rfl

/-- C6 amended: every failure response body is a JSON object with a stable
`error` field — one of the three classified bodies for transport failures,
`Route not found` for routing misses, `Internal server error` for
gateway-internal faults — and is never a stack trace; however, whenever the
classifier returns 500 the body's `message` field is exactly the transport
error's raw message text. -/
theorem failure_bodies_structured (serviceName target now : String)
    (err : ErrorInfo) :
    ((onError serviceName target err now).2 = Json.obj
        [("error", Json.str "Service Unavailable"),
         ("message", Json.str (serviceName ++ " service is not responding")),
         ("service", Json.str serviceName),
         ("target", Json.str target),
         ("timestamp", Json.str now)] ∨
     (onError serviceName target err now).2 = Json.obj
        [("error", Json.str "Gateway Timeout"),
         ("message", Json.str (serviceName ++ " service took too long to respond")),
         ("service", Json.str serviceName)] ∨
     (onError serviceName target err now).2 = Json.obj
        [("error", Json.str "Proxy Error"),
         ("message", Json.str err.message),
         ("code", Json.str err.code),
         ("service", Json.str serviceName)]) ∧
    notFoundBody = Json.obj [("error", Json.str "Route not found")] ∧
    globalErrorResponse = (500, Json.obj [("error", Json.str "Internal server error")]) ∧
    ((onError serviceName target err now).1 = 500 →
      (onError serviceName target err now).2 = Json.obj
        [("error", Json.str "Proxy Error"),
         ("message", Json.str err.message),
         ("code", Json.str err.code),
         ("service", Json.str serviceName)]) := by
  rcases err with ⟨c, m⟩
  by_cases h1 : c = "ECONNREFUSED"
  · subst h1
    exact ⟨Or.inl rfl, rfl, rfl, by intro h; simp [onError] at h⟩
  · by_cases h2 : c = "ETIMEDOUT"
    · subst h2
      exact ⟨Or.inr (Or.inl rfl), rfl, rfl, by intro h; simp [onError] at h⟩
    · have hb1 : (c == "ECONNREFUSED") = false := by simp [h1]
      have hb2 : (c == "ETIMEDOUT") = false := by simp [h2]
      refine ⟨Or.inr (Or.inr ?_), rfl, rfl, fun _ => ?_⟩ <;>
        simp [onError, hb1, hb2]

/-- Witness for C6 amended: evaluated on a concrete socket hang-up, the body
is the Proxy Error shape and the 500 branch echoes the raw message. -/
theorem failure_bodies_structured_witness :
    ((onError "classifier" "http://classifier.railway.internal:8000"
       ⟨"ECONNRESET", "socket hang up"⟩ "ts").2 = Json.obj
        [("error", Json.str "Service Unavailable"),
         ("message", Json.str "classifier service is not responding"),
         ("service", Json.str "classifier"),
         ("target", Json.str "http://classifier.railway.internal:8000"),
         ("timestamp", Json.str "ts")] ∨
    (onError "classifier" "http://classifier.railway.internal:8000"
       ⟨"ECONNRESET", "socket hang up"⟩ "ts").2 = Json.obj
        [("error", Json.str "Gateway Timeout"),
         ("message", Json.str "classifier service took too long to respond"),
         ("service", Json.str "classifier")] ∨
    (onError "classifier" "http://classifier.railway.internal:8000"
       ⟨"ECONNRESET", "socket hang up"⟩ "ts").2 = Json.obj
        [("error", Json.str "Proxy Error"),
         ("message", Json.str "socket hang up"),
         ("code", Json.str "ECONNRESET"),
         ("service", Json.str "classifier")]) ∧
    (onError "classifier" "http://classifier.railway.internal:8000"
       ⟨"ECONNRESET", "socket hang up"⟩ "ts").2 = Json.obj
        [("error", Json.str "Proxy Error"),
         ("message", Json.str "socket hang up"),
         ("code", Json.str "ECONNRESET"),
         ("service", Json.str "classifier")] :=
  ⟨(failure_bodies_structured "classifier"
      "http://classifier.railway.internal:8000" "ts"
      ⟨"ECONNRESET", "socket hang up"⟩).1,
   (failure_bodies_structured "classifier"
      "http://classifier.railway.internal:8000" "ts"
      ⟨"ECONNRESET", "socket hang up"⟩).2.2.2 rfl⟩

/-- C7 counterexample: `/api` is a literal string prefix of `/apifoo`, yet
the matcher returns no route for `/apifoo` and the request receives the 404
response — matching is at a path segment boundary, not literal
string-prefix matching. -/
theorem literal_string_matching_refuted :
    List.isPrefixOf "/api".toList "/apifoo".toList = true ∧
    matchRoute (routes SERVICE_URLS) "/apifoo".toList = none ∧
    handle SERVICE_URLS ⟨"GET", "/apifoo".toList⟩ "ts" =
      .direct 404 notFoundBody :=
  ⟨rfl, rfl, rfl⟩

/-- C7 amended: for every request path, the matcher returns the first route
(in registration order) whose prefix matches the path at a path segment
boundary — the path equals the prefix or continues it with a slash; a path
that merely has a registered prefix as a literal string prefix without a
segment boundary (such as `/apifoo`) matches no route and reaches the 404
handler. -/
theorem matcher_first_segment_boundary (cfg : ServiceUrls) (path : ReqPath) :
    (matchRoute (routes cfg) path = none ↔
      ∀ r ∈ routes cfg, mountMatches r.mountStr path = false) ∧
    (∀ r, matchRoute (routes cfg) path = some r →
      r ∈ routes cfg ∧
      (path = r.mountStr ∨ List.isPrefixOf (r.mountStr ++ ['/']) path = true)) ∧
    (∀ rs₁ r rs₂, routes cfg = rs₁ ++ r :: rs₂ →
      (∀ r' ∈ rs₁, mountMatches r'.mountStr path = false) →
      mountMatches r.mountStr path = true →
      matchRoute (routes cfg) path = some r) ∧
    (matchRoute (routes SERVICE_URLS) "/apifoo".toList = none ∧
     handle SERVICE_URLS ⟨"GET", "/apifoo".toList⟩ "ts" =
       .direct 404 notFoundBody) := by
  refine ⟨?_, ?_, ?_, rfl, rfl⟩
  · rw [matchRoute, List.find?_eq_none]
    constructor
    · intro h r hr
      have := h r hr
      simpa using this
    · intro h r hr
      simp [h r hr]
  · intro r hm
    refine ⟨List.mem_of_find?_eq_some hm, ?_⟩
    have := List.find?_some hm
    simpa [mountMatches] using this
  · intro rs₁ r rs₂ heq h₁ h₂
    rw [matchRoute, heq]
    exact find?_first _ _ _ _ h₁ h₂

/-- Witness for C7 amended: the decomposition of the route table around the
collect route, evaluated at the concrete path `/api/collect/ingest`. -/
theorem matcher_first_segment_boundary_witness :
    matchRoute (routes SERVICE_URLS) "/api/collect/ingest".toList =
      some (collectRoute SERVICE_URLS) :=
  (matcher_first_segment_boundary SERVICE_URLS "/api/collect/ingest".toList).2.2.1
    [classifyRoute SERVICE_URLS, cleanRoute SERVICE_URLS, generateRoute SERVICE_URLS]
    (collectRoute SERVICE_URLS)
    [companiesRoute SERVICE_URLS, catchAllRoute SERVICE_URLS]
    rfl (by decide) (by decide)

/-- C8: a request whose path matches no registered route prefix and is
neither `/health` nor `/diagnostic` receives exactly status 404 with body
`error: Route not found`. -/
theorem unmatched_gets_404 (cfg : ServiceUrls) (req : Request) (now : String)
    (hnone : ∀ r ∈ routes cfg, mountMatches r.mountStr req.path = false)
    (hhealth : req.path ≠ "/health".toList)
    (hdiag : req.path ≠ "/diagnostic".toList) :
    handle cfg req now = .direct 404 (Json.obj [("error", Json.str "Route not found")]) := by
  have hm : matchRoute (routes cfg) req.path = none := by
    rw [matchRoute, List.find?_eq_none]
    intro r hr
    simp [hnone r hr]
  have hb1 : (req.path == "/health".toList) = false := by
    simpa using hhealth
  have hb2 : (req.path == "/diagnostic".toList) = false := by
    simpa using hdiag
  have h1 : (req.method == "GET" && req.path == "/health".toList) = false := by
    rw [hb1, Bool.and_false]
  have h2 : (req.method == "GET" && req.path == "/diagnostic".toList) = false := by
    rw [hb2, Bool.and_false]
  rw [handle, hm]
  simp only [h1, h2, Bool.false_eq_true, if_false]
  rfl

/-- Witness for C8: the concrete request `POST /nope` matches nothing and
receives the 404 body. -/
theorem unmatched_gets_404_witness :
    handle SERVICE_URLS ⟨"POST", "/nope".toList⟩ "ts" =
      .direct 404 (Json.obj [("error", Json.str "Route not found")]) :=
  unmatched_gets_404 SERVICE_URLS ⟨"POST", "/nope".toList⟩ "ts"
    (by decide) (by decide) (by decide)

/-- C9: `GET /health` always answers 200 with a body containing status `OK`,
the timestamp, and the fixed static services map; the outcome is a direct
response (no backend call is involved) and is independent of the configured
service targets, hence identical across runs except for the timestamp. -/
theorem health_static (cfg cfg' : ServiceUrls) (now : String) :
    handle cfg ⟨"GET", "/health".toList⟩ now =
      .direct 200 (Json.obj
        [("status", Json.str "OK"),
         ("timestamp", Json.str now),
         ("services", Json.obj
           [("classifier", Json.str "http://classifier.railway.internal"),
            ("parsercleaner", Json.str "http://parser_cleaner.railway.internal"),
            ("responsegenerator", Json.str "http://response_generator.railway.internal"),
            ("collector", Json.str "lemlist-collector.railway.internal")])]) ∧
    handle cfg ⟨"GET", "/health".toList⟩ now =
      handle cfg' ⟨"GET", "/health".toList⟩ now :=
  ⟨rfl, rfl⟩

/-- C10: the set of URLs probed by `GET /diagnostic` is the fixed hardcoded
list of three collector address variants (ports 8000, 3000, and no port),
each probed at `/status` with its own 5000 ms timeout value, and this set is
independent of the environment-supplied target configuration: two runs with
different targets probe exactly the same URLs. -/
theorem diagnostic_probes_fixed (cfg cfg' : ServiceUrls) (now : String) :
    diagnosticProbes cfg =
      [⟨"collector-8000", "http://lemlist-collector.railway.internal:8000/status", 5000⟩,
       ⟨"collector-3000", "http://lemlist-collector.railway.internal:3000/status", 5000⟩,
       ⟨"collector-no-port", "http://lemlist-collector.railway.internal/status", 5000⟩] ∧
    diagnosticProbes cfg = diagnosticProbes cfg' ∧
    handle cfg ⟨"GET", "/diagnostic".toList⟩ now = .probing (diagnosticProbes cfg) :=
  ⟨rfl, rfl, rfl⟩
